import Mathlib

/-!
Verification of the biofouling dashboard's computational core.

The physics formulas (`propulsion_physics.py`), the safety rule evaluator
(`safety_rules.py`) and the maintenance advisor (`maintenance_schedule.py`)
are shallowly embedded over `ℚ`; the Streamlit page `app.py` is embedded as
a step-by-step control-flow function over success/failure flags for its
guarded blocks, together with the concrete name lists of its helper-module
importing statement.
-/

namespace Biofouling

/-- `resistance_increase(roughness, vessel_speed)` from propulsion_physics.py:
`(1 + roughness * 15) * (vessel_speed ** 2)`. -/
def resistance_increase (roughness vessel_speed : ℚ) : ℚ :=
  (1 + roughness * 15) * (vessel_speed ^ 2)

/-- `power_required(resistance, vessel_speed)` from propulsion_physics.py:
`speed_m_s = vessel_speed * 0.51444; return resistance * speed_m_s`. -/
def power_required (resistance vessel_speed : ℚ) : ℚ :=
  let speed_m_s := vessel_speed * (51444 / 100000)
  resistance * speed_m_s

/-- `speed_loss_due_to_fouling(roughness, vessel_speed)` from
propulsion_physics.py: `loss_percent = roughness * 50`, clamped by
`min(loss_percent, 90)`, then `vessel_speed * (1 - loss_percent / 100)`. -/
def speed_loss_due_to_fouling (roughness vessel_speed : ℚ) : ℚ :=
  let loss_percent := roughness * 50
  let loss_percent := min loss_percent 90
  vessel_speed * (1 - loss_percent / 100)

/-- `fuel_consumption_lph(power_kw, sfc=210, fuel_density=850)` from
propulsion_physics.py: `fuel_kg_per_hr = (power_kw * sfc) / 1000;
fuel_lph = (fuel_kg_per_hr / fuel_density) * 1000`.  The Python defaults
`sfc=210`, `fuel_density=850` are passed explicitly by callers here. -/
def fuel_consumption_lph (power_kw sfc fuel_density : ℚ) : ℚ :=
  let fuel_kg_per_hr := (power_kw * sfc) / 1000
  (fuel_kg_per_hr / fuel_density) * 1000

/-- `fuel_consumption_tph(power_kw, sfc=210)` from propulsion_physics.py. -/
def fuel_consumption_tph (power_kw sfc : ℚ) : ℚ :=
  let fuel_kg_per_hr := (power_kw * sfc) / 1000
  fuel_kg_per_hr / 1000

/-- `fuel_curve(vessel_speed, roughness)` from propulsion_physics.py:
`res = resistance_increase(roughness, vessel_speed);
power_kw = power_required(res, vessel_speed) / 1000;
return fuel_consumption_lph(power_kw)` (with the default `sfc`/`fuel_density`). -/
def fuel_curve (vessel_speed roughness : ℚ) : ℚ :=
  let res := resistance_increase roughness vessel_speed
  let power_kw := power_required res vessel_speed / 1000
  fuel_consumption_lph power_kw 210 850

/-- `np.linspace a b n` as used by app.py's sweep: `n` evenly spaced samples
from `a` to `b` inclusive, sample `i` being `a + (b - a) * i / (n - 1)`. -/
def linspace (a b : ℚ) (n : ℕ) : List ℚ :=
  (List.range n).map (fun i : ℕ => a + (b - a) * (i : ℚ) / ((n : ℚ) - 1))

/-- Warning string of safety rule 1 (speed limit) in safety_rules.py. -/
def speedWarning : String :=
  "WARNING: Speed too high for safety. Reduce speed."

/-- Warning string of safety rule 2 (roughness limit) in safety_rules.py. -/
def roughnessWarning : String :=
  "WARNING: Hull roughness is too high. Immediate cleaning recommended."

/-- Warning string of safety rule 3 (cleaning limit) in safety_rules.py. -/
def cleaningWarning : String :=
  "WARNING: Hull overdue for cleaning. Schedule maintenance."

/-- The safe sentinel string of safety_rules.py. -/
def safeSentinel : String := "SAFE: Operating within limits."

/-- `check_operational_safety(speed_kn, roughness, days_since_cleaning)` from
safety_rules.py: appends each triggered warning in rule order to a list,
then returns the safe sentinel when the list is empty and the space-joined
(`" ".join`) concatenation otherwise. -/
def check_operational_safety (speed_kn roughness days_since_cleaning : ℚ) :
    String :=
  let warnings : List String :=
    (if speed_kn > 22 then [speedWarning] else []) ++
    (if roughness > 15 / 100 then [roughnessWarning] else []) ++
    (if days_since_cleaning > 120 then [cleaningWarning] else [])
  if warnings.length = 0 then safeSentinel
  else String.intercalate " " warnings

/-- `maintenance_action(prediction)` from maintenance_schedule.py: an
equality chain on the predicted class with a final fallback branch. -/
def maintenance_action (prediction : ℚ) : String :=
  if prediction = 0 then
    "Maintenance Action: No immediate action needed. Continue monitoring."
  else if prediction = 1 then
    "Maintenance Action: Plan hull cleaning soon. Reduce idle time."
  else if prediction = 2 then
    "Maintenance Action: Immediate hull cleaning required! Check antifouling paint and inspect hull."
  else
    "Maintenance Action: Unknown severity."

/-- The names app.py requests in
`from propulsion_physics import (fuel_curve, resistance_increase,
power_required, speed_loss_due_to_fouling, fuel_consumption)`. -/
def app_propulsion_imports : List String :=
  ["fuel_curve", "resistance_increase", "power_required",
   "speed_loss_due_to_fouling", "fuel_consumption"]

/-- The top-level names defined by propulsion_physics.py (were its bodies
syntactically valid Python, these are all the module-level definitions). -/
def propulsion_physics_defined_names : List String :=
  ["resistance_increase", "power_required", "speed_loss_due_to_fouling",
   "fuel_consumption_lph", "fuel_consumption_tph", "fuel_curve"]

/-- Whether app.py's `from propulsion_physics import (...)` statement can
resolve every requested name against the module's definitions. -/
def helper_import_ok : Bool :=
  app_propulsion_imports.all (fun n => propulsion_physics_defined_names.contains n)

/-- What one run of app.py renders.  Each guarded block of the page either
renders its output, or shows its localized error message; `stopped` records
whether `st.stop()` was reached. -/
structure AppOutput where
  importError : Bool
  modelError : Bool
  predictionRendered : Bool
  predictionError : Bool
  safetyRendered : Bool
  safetyError : Bool
  physicsRendered : Bool
  physicsError : Bool
  fuelChartRendered : Bool
  fuelChartError : Bool
  speedChartRendered : Bool
  speedChartError : Bool
  stopped : Bool
  deriving DecidableEq, Repr

/-- Control flow of app.py over success flags for its guarded blocks, one
flag per try/except: helper import, model load, prediction, safety and
maintenance, physics metrics, fuel chart, speed chart.  The import, model
and prediction except-branches end in `st.stop()`, which aborts the page;
the later except-branches show `st.warning` and fall through. -/
def runApp (importOk modelOk predictionOk safetyOk physicsOk
    fuelChartOk speedChartOk : Bool) : AppOutput :=
  if importOk = false then
    ⟨true, false, false, false, false, false, false, false,
     false, false, false, false, true⟩
  else if modelOk = false then
    ⟨false, true, false, false, false, false, false, false,
     false, false, false, false, true⟩
  else if predictionOk = false then
    ⟨false, false, false, true, false, false, false, false,
     false, false, false, false, true⟩
  else
    ⟨false, false, true, false,
     safetyOk, !safetyOk,
     physicsOk, !physicsOk,
     fuelChartOk, !fuelChartOk,
     speedChartOk, !speedChartOk,
     false⟩

/-- Closed form of `fuel_curve`: the whole chain collapses to a positive
constant times `(1 + 15 * roughness) * speed ^ 3`. -/
theorem fuel_curve_eq (v r : ℚ) :
    fuel_curve v r = (1 + r * 15) * v ^ 3 * (51444 * 210 / (100000 * 1000 * 850)) := by
  simp only [fuel_curve, fuel_consumption_lph, power_required, resistance_increase]
  ring

/-- C2 counterexample: with the code's constant `k1 = 15`,
`resistance_increase(0.05, 12)` is not the spec's Scenario A value `216.0`. -/
theorem scenarioA_not_216 : resistance_increase (5 / 100) 12 ≠ 216 := by
  norm_num [resistance_increase]

/-- C2 (amended): the resistance formula is `(1 + k1 * roughness) * speed^2`
with `k1 = 15`, hence `resistance_increase(0.05, 12) = (1 + 0.75) * 144 = 252.0`. -/
theorem scenarioA_k1_fifteen :
    resistance_increase (5 / 100) 12 = 252 ∧
    ∀ r v : ℚ, resistance_increase r v = (1 + 15 * r) * v ^ 2 := by
  constructor
  · norm_num [resistance_increase]
  · intro r v
    simp only [resistance_increase]
    ring

/-- C8: for roughness ≥ 0 and speed > 0, `resistance_increase` is bounded
below by `speed^2`, is monotonically non-decreasing in roughness, and at
roughness 0 reduces exactly to `speed^2`. -/
theorem resistance_lower_bound_mono (r v : ℚ) (hr : 0 ≤ r) (hv : 0 < v) :
    v ^ 2 ≤ resistance_increase r v ∧
    (∀ r' : ℚ, r ≤ r' → resistance_increase r v ≤ resistance_increase r' v) ∧
    resistance_increase 0 v = v ^ 2 := by
  refine ⟨?_, ?_, ?_⟩
  · simp only [resistance_increase]
    nlinarith [sq_nonneg v]
  · intro r' hr'
    simp only [resistance_increase]
    nlinarith [sq_nonneg v]
  · simp only [resistance_increase]
    ring

/-- Witness for C8 at roughness `0.05`, speed `12`. -/
theorem resistance_lower_bound_mono_witness :
    (12 : ℚ) ^ 2 ≤ resistance_increase (5 / 100) 12 ∧
    resistance_increase (5 / 100) 12 ≤ resistance_increase (1 / 10) 12 := by
  have h := resistance_lower_bound_mono (5 / 100) 12 (by norm_num) (by norm_num)
  exact ⟨h.1, h.2.1 (1 / 10) (by norm_num)⟩

/-- C10: for positive speed and negative roughness, the clamp
`min(loss_percent, 90)` bounds the loss only from above, so the "fouled"
speed strictly exceeds the clean speed. -/
theorem negative_roughness_speed_gain (r v : ℚ) (hv : 0 < v) (hr : r < 0) :
    v < speed_loss_due_to_fouling r v := by
  simp only [speed_loss_due_to_fouling]
  have hmin : min (r * 50) 90 = r * 50 := min_eq_left (by nlinarith)
  rw [hmin]
  nlinarith

/-- Witness for C10 at roughness `-0.1`, speed `12` (fouled speed `12.6`). -/
theorem negative_roughness_speed_gain_witness :
    (12 : ℚ) < speed_loss_due_to_fouling (-1 / 10) 12 :=
  negative_roughness_speed_gain (-1 / 10) 12 (by norm_num) (by norm_num)

/-- C1 counterexample: when the prediction step fails (step flags: import ok,
model ok, prediction failed, all later steps healthy), app.py reaches
`st.stop()` and the physics-metrics block is never rendered. -/
theorem prediction_failure_blocks_metrics :
    (runApp true true false true true true true).physicsRendered = false ∧
    (runApp true true false true true true true).stopped = true := by
  exact ⟨rfl, rfl⟩

/-- C1 (amended): a prediction failure halts the page (`st.stop()`), so
physics metrics are not rendered; step isolation holds only after a
successful prediction, where the physics block renders exactly when its own
step succeeds — in particular a safety/maintenance failure leaves a localized
error and still lets the physics metrics render. -/
theorem post_prediction_isolation :
    ∀ sOk phOk fOk spOk : Bool,
      (runApp true true false sOk phOk fOk spOk).physicsRendered = false ∧
      (runApp true true false sOk phOk fOk spOk).stopped = true ∧
      (runApp true true true sOk phOk fOk spOk).physicsRendered = phOk ∧
      (runApp true true true false phOk fOk spOk).physicsRendered = phOk ∧
      (runApp true true true false phOk fOk spOk).safetyError = true := by
  decide

/-- C4: app.py requests the name `fuel_consumption` which propulsion_physics
does not define, so the guarded helper import can never succeed; with the
failed import step, every run shows the import error, stops, and renders no
prediction, no physics metrics and no sweep charts. -/
theorem import_always_fails :
    helper_import_ok = false ∧
    ∀ m p s ph f sp : Bool,
      (runApp helper_import_ok m p s ph f sp).importError = true ∧
      (runApp helper_import_ok m p s ph f sp).stopped = true ∧
      (runApp helper_import_ok m p s ph f sp).predictionRendered = false ∧
      (runApp helper_import_ok m p s ph f sp).physicsRendered = false ∧
      (runApp helper_import_ok m p s ph f sp).fuelChartRendered = false ∧
      (runApp helper_import_ok m p s ph f sp).speedChartRendered = false := by
  decide

/-- C3 counterexample: the claim quantifies over every speed, but at
speed `-1` (roughness `0`) the result is negative, violating "never
negative" and the stated interval. -/
theorem speed_loss_negative_speed :
    speed_loss_due_to_fouling 0 (-1) < 0 := by
  norm_num [speed_loss_due_to_fouling, min_def]

/-- C3 (amended): for roughness ≥ 0 and speed ≥ 0, `speed_loss_due_to_fouling`
is monotonically non-increasing in roughness and lies in
`[speed * (1 - 90/100), speed]`; `speed_loss_due_to_fouling(0.2, 12) = 10.8`,
and once `roughness * 50 ≥ 90` the result saturates at `speed * 0.10`. -/
theorem speed_loss_clamp (r v : ℚ) (hr : 0 ≤ r) (hv : 0 ≤ v) :
    (∀ r' : ℚ, r ≤ r' →
      speed_loss_due_to_fouling r' v ≤ speed_loss_due_to_fouling r v) ∧
    v * (1 - 90 / 100) ≤ speed_loss_due_to_fouling r v ∧
    speed_loss_due_to_fouling r v ≤ v ∧
    speed_loss_due_to_fouling (2 / 10) 12 = 108 / 10 ∧
    (∀ r₂ v₂ : ℚ, 90 ≤ r₂ * 50 →
      speed_loss_due_to_fouling r₂ v₂ = v₂ * (10 / 100)) := by
  refine ⟨?_, ?_, ?_, ?_, ?_⟩
  · intro r' h
    simp only [speed_loss_due_to_fouling]
    have h1 : min (r * 50) 90 ≤ min (r' * 50) 90 :=
      min_le_min (by nlinarith) le_rfl
    have h2 : v * min (r * 50) 90 ≤ v * min (r' * 50) 90 :=
      mul_le_mul_of_nonneg_left h1 hv
    linarith
  · simp only [speed_loss_due_to_fouling]
    have h1 : min (r * 50) 90 ≤ 90 := min_le_right _ _
    have h2 : v * min (r * 50) 90 ≤ v * 90 :=
      mul_le_mul_of_nonneg_left h1 hv
    linarith
  · simp only [speed_loss_due_to_fouling]
    have h1 : 0 ≤ min (r * 50) 90 := le_min (by nlinarith) (by norm_num)
    have h2 : 0 ≤ v * min (r * 50) 90 := mul_nonneg hv h1
    linarith
  · norm_num [speed_loss_due_to_fouling, min_def]
  · intro r₂ v₂ h
    simp only [speed_loss_due_to_fouling]
    rw [min_eq_right (by linarith)]
    ring

/-- Witness for C3 at roughness `0.2`, speed `12` (and sample `0.3` for
monotonicity). -/
theorem speed_loss_clamp_witness :
    speed_loss_due_to_fouling (3 / 10) 12 ≤ speed_loss_due_to_fouling (2 / 10) 12 ∧
    speed_loss_due_to_fouling (2 / 10) 12 ≤ 12 := by
  have h := speed_loss_clamp (2 / 10) 12 (by norm_num) (by norm_num)
  exact ⟨h.1 (3 / 10) (by norm_num), h.2.2.1⟩

/-- C5: `check_operational_safety` returns the safe sentinel exactly when
all three thresholds hold, and otherwise the space-joined concatenation of
the triggered warnings in the fixed rule order speed, roughness, cleaning. -/
theorem safety_verdict (s r d : ℚ) :
    (check_operational_safety s r d = safeSentinel ↔
      s ≤ 22 ∧ r ≤ 15 / 100 ∧ d ≤ 120) ∧
    (¬(s ≤ 22 ∧ r ≤ 15 / 100 ∧ d ≤ 120) →
      check_operational_safety s r d = String.intercalate " "
        ((if s > 22 then [speedWarning] else []) ++
         (if r > 15 / 100 then [roughnessWarning] else []) ++
         (if d > 120 then [cleaningWarning] else []))) := by
  simp only [check_operational_safety]
  split_ifs with h1 h2 h3 h4 h5 h6 h7 h8 h9 h10 h11 h12 h13 h14 h15 <;>
    simp_all [not_lt, le_of_lt, speedWarning, roughnessWarning,
      cleaningWarning, safeSentinel] <;>
    exact iff_of_false (by decide) (by push_neg; intros; linarith)

/-- Witness for C5: at speed 23, roughness 0.2, days 130 all three rules
trigger and the verdict is the three warnings space-joined. -/
theorem safety_verdict_witness :
    ¬((23 : ℚ) ≤ 22 ∧ (2 : ℚ) / 10 ≤ 15 / 100 ∧ (130 : ℚ) ≤ 120) ∧
    check_operational_safety 23 (2 / 10) 130 =
      String.intercalate " " [speedWarning, roughnessWarning, cleaningWarning] := by
  have h := (safety_verdict 23 (2 / 10) 130).2 (by norm_num)
  refine ⟨by norm_num, ?_⟩
  rw [h]
  norm_num

/-- C9: `maintenance_action` is total and never empty, with the explicit
fallback string outside {0,1,2}; `check_operational_safety` is total and
never empty. -/
theorem lookups_total (p s r d : ℚ) :
    maintenance_action p ≠ "" ∧
    (p ≠ 0 → p ≠ 1 → p ≠ 2 →
      maintenance_action p = "Maintenance Action: Unknown severity.") ∧
    check_operational_safety s r d ≠ "" := by
  refine ⟨?_, ?_, ?_⟩
  · simp only [maintenance_action]
    split_ifs <;> decide
  · intro h0 h1 h2
    simp only [maintenance_action, if_neg h0, if_neg h1, if_neg h2]
  · simp only [check_operational_safety]
    split_ifs <;> first | decide | simp_all
/-- Witness for C9 at prediction 5 (outside {0,1,2}) and a safe triple. -/
theorem lookups_total_witness :
    maintenance_action 5 ≠ "" ∧
    maintenance_action 5 = "Maintenance Action: Unknown severity." ∧
    check_operational_safety 12 (5 / 100) 60 ≠ "" := by
  have h := lookups_total 5 12 (5 / 100) 60
  exact ⟨h.1, h.2.1 (by norm_num) (by norm_num) (by norm_num), h.2.2⟩

/-- C6: `fuel_curve` is monotonically non-decreasing in roughness for fixed
positive speed, and the 50-sample sweep from 0.01 to 0.2 at speed 12 yields
a non-decreasing fuel-rate sequence. -/
theorem fuel_curve_monotone :
    (∀ v r₁ r₂ : ℚ, 0 < v → r₁ ≤ r₂ → fuel_curve v r₁ ≤ fuel_curve v r₂) ∧
    List.Chain' (· ≤ ·) ((linspace (1 / 100) (2 / 10) 50).map (fuel_curve 12)) := by
  have mono : ∀ v r₁ r₂ : ℚ, 0 < v → r₁ ≤ r₂ →
      fuel_curve v r₁ ≤ fuel_curve v r₂ := by
    intro v r₁ r₂ hv h
    rw [fuel_curve_eq, fuel_curve_eq]
    have h3 : 0 < v ^ 3 := pow_pos hv 3
    nlinarith
  refine ⟨mono, ?_⟩
  simp only [linspace, List.map_map]
  rw [List.chain'_map]
  rw [show (50 : ℕ) = Nat.succ 49 from rfl, List.chain'_range_succ]
  intro m _
  simp only [Function.comp]
  apply mono 12 _ _ (by norm_num)
  push_cast
  linarith

/-- Witness for C6: the sweep endpoints at speed 12 are ordered. -/
theorem fuel_curve_monotone_witness :
    fuel_curve 12 (1 / 100) ≤ fuel_curve 12 (2 / 10) :=
  fuel_curve_monotone.1 12 (1 / 100) (2 / 10) (by norm_num) (by norm_num)

/-- C7: `fuel_curve` is exactly the composition
`fuel_consumption_lph(power_required(resistance_increase(r, v), v) / 1000)`
with the Python default constants, the division by 1000 applied once at the
kW boundary, and the whole chain collapses to a single closed form. -/
theorem fuel_curve_composition (v r : ℚ) :
    fuel_curve v r =
      fuel_consumption_lph (power_required (resistance_increase r v) v / 1000)
        210 850 ∧
    fuel_curve v r = (1 + r * 15) * v ^ 3 * (51444 * 210 / (100000 * 1000 * 850)) :=
  ⟨rfl, fuel_curve_eq v r⟩

end Biofouling
